import Mathlib

/-
Verification of the Settings Mapping of the ains.co repository.

The repository's single source file, `pelicanconf.py`, is a flat key-value
configuration document for a static-site generator: module-level assignments
of string, integer, boolean, null and pair-list literals.  We embed that
document as an association list from key names to values, and model the
loader/accessor contract (`load`, `get`, the error taxonomy and the defaults)
described by the specification, since the loader itself lives outside this
repository.
-/

namespace AinsCo

/-- A configuration value: string, integer, boolean, null, a list of
(label, URL) string pairs, or a list of strings. These are exactly the
literal shapes occurring in the configuration document. -/
inductive Value where
  | str (s : String)
  | int (n : Int)
  | bool (b : Bool)
  | null
  | pairList (ps : List (String × String))
  | strList (ss : List String)
deriving DecidableEq, Repr

/-- A configuration document: an ordered flat mapping from setting name to
value, as produced by the module-level assignments of `pelicanconf.py`. -/
abbrev Doc := List (String × Value)

/-- The configuration document of `src/pelicanconf.py`, one entry per
module-level assignment, in source order. -/
def pelicanconf : Doc :=
  [ ("AUTHOR", Value.str "Ainsley Escorce-Jones"),
    ("SITENAME", Value.str "Ainsley Escorce-Jones | Blog"),
    ("SITEURL", Value.str "/"),
    ("TIMEZONE", Value.str "Europe/Paris"),
    ("DEFAULT_LANG", Value.str "en"),
    ("FEED_ALL_ATOM", Value.null),
    ("CATEGORY_FEED_ATOM", Value.null),
    ("TRANSLATION_FEED_ATOM", Value.null),
    ("LINKS", Value.pairList
      [ ("Pelican", "http://getpelican.com/"),
        ("Python.org", "http://python.org/"),
        ("Jinja2", "http://jinja.pocoo.org/"),
        ("You can modify those links in your config file", "#") ]),
    ("SOCIAL", Value.pairList
      [ ("You can add links in your config file", "#"),
        ("Another social link", "#") ]),
    ("DEFAULT_PAGINATION", Value.int 10),
    ("THEME", Value.str "fukasawa"),
    ("RELATIVE_URLS", Value.bool true),
    ("ARCHIVES_SAVE_AS", Value.str "blog/index.html"),
    ("ARTICLE_URL", Value.str "blog/\x7bslug\x7d.html"),
    ("ARTICLE_SAVE_AS", Value.str "blog/\x7bslug\x7d.html") ]

/-- The expected type of a recognized key's value, per the specification's
key table. -/
inductive ValType where
  | tStr
  | tInt
  | tBool
  | tOptStr
  | tPairList
  | tStrList
deriving DecidableEq, Repr

/-- Modelled from the spec: the three feed keys, whose values are a string
path or null, where null disables feed generation. -/
def feedKeys : List String :=
  ["FEED_ALL_ATOM", "CATEGORY_FEED_ATOM", "TRANSLATION_FEED_ATOM"]

/-- Modelled from the spec: the recognized-key table of section 6.  Maps a
recognized key to its expected value type, and any unrecognized key to
`none`. -/
def typeOf? (k : String) : Option ValType :=
  if k = "AUTHOR" ∨ k = "SITENAME" ∨ k = "SITEURL" ∨ k = "TIMEZONE" ∨
     k = "DEFAULT_LANG" ∨ k = "THEME" ∨ k = "ARCHIVES_SAVE_AS" ∨
     k = "ARTICLE_URL" ∨ k = "ARTICLE_SAVE_AS" then some ValType.tStr
  else if k ∈ feedKeys then some ValType.tOptStr
  else if k = "LINKS" ∨ k = "SOCIAL" then some ValType.tPairList
  else if k = "DEFAULT_PAGINATION" then some ValType.tInt
  else if k = "RELATIVE_URLS" then some ValType.tBool
  else if k = "PLUGIN_PATHS" ∨ k = "PLUGINS" then some ValType.tStrList
  else none

/-- Modelled from the spec: whether a value matches an expected type.  The
feed keys accept a string path or null. -/
def checksType : Value → ValType → Bool
  | Value.str _, ValType.tStr => true
  | Value.int _, ValType.tInt => true
  | Value.bool _, ValType.tBool => true
  | Value.str _, ValType.tOptStr => true
  | Value.null, ValType.tOptStr => true
  | Value.pairList _, ValType.tPairList => true
  | Value.strList _, ValType.tStrList => true
  | _, _ => false

/-- Modelled from the spec: the load-time error taxonomy of section 7
(`MissingRequiredKeyError`, `MalformedConfigError`). -/
inductive LoadError where
  | missingRequiredKey (k : String)
  | malformedConfig (k : String)
deriving DecidableEq, Repr

/-- Modelled from the spec: the mandatory keys (site name, site URL). -/
def requiredKeys : List String := ["SITENAME", "SITEURL"]

/-- Modelled from the spec: one `MissingRequiredKeyError` per mandatory key
absent from the document. -/
def missingErrors (doc : Doc) : List LoadError :=
  requiredKeys.filterMap fun k =>
    match List.lookup k doc with
    | some _ => none
    | none => some (LoadError.missingRequiredKey k)

/-- Modelled from the spec: one `MalformedConfigError` per recognized key
bound to a value of the wrong type. -/
def malformedErrors (doc : Doc) : List LoadError :=
  doc.filterMap fun kv =>
    match typeOf? kv.1 with
    | some t => if checksType kv.2 t then none else some (LoadError.malformedConfig kv.1)
    | none => none

/-- Modelled from the spec: the non-fatal `UnknownKeyWarning`s, one per
unrecognized key, which is ignored rather than rejected. -/
def unknownKeyWarnings (doc : Doc) : List String :=
  doc.filterMap fun kv =>
    match typeOf? kv.1 with
    | some _ => none
    | none => some kv.1

/-- An immutable settings object: the recognized entries of a successfully
loaded document. -/
structure Settings where
  entries : Doc
deriving DecidableEq, Repr

/-- Modelled from the spec: `load(source) -> Settings`, failing with the
(nonempty) list of load-time errors when a mandatory key is absent or a
recognized key holds a value of the wrong type; unrecognized keys are
dropped with a warning, not an error.  All errors are detected at load
time, so the error case carries every detected error. -/
def load (doc : Doc) : Except (List LoadError) Settings :=
  if (missingErrors doc ++ malformedErrors doc).isEmpty then
    Except.ok ⟨doc.filter fun kv => (typeOf? kv.1).isSome⟩
  else
    Except.error (missingErrors doc ++ malformedErrors doc)

/-- Modelled from the spec: the documented defaults of `get`: pagination
defaults to 10, the feed generation flags default to null (disabled). -/
def defaultFor (k : String) : Option Value :=
  if k = "DEFAULT_PAGINATION" then some (Value.int 10)
  else if k ∈ feedKeys then some Value.null
  else none

/-- Modelled from the spec: `get(key) -> value | default`: the configured
value, or the documented default, or nothing. -/
def Settings.get (s : Settings) (k : String) : Option Value :=
  match List.lookup k s.entries with
  | some v => some v
  | none => defaultFor k

/-- Modelled from the spec: feed generation for a feed key is enabled
exactly when the key holds a string path; a null value disables it. -/
def feedGenerationOn (s : Settings) (k : String) : Bool :=
  match Settings.get s k with
  | some (Value.str _) => true
  | _ => false

/-- The settings object obtained by loading `pelicanconf`. -/
def pelicanSettings : Settings :=
  ⟨pelicanconf.filter fun kv => (typeOf? kv.1).isSome⟩

/-- Whether a character pattern occurs at the head of a character list. -/
def startsWithL : List Char → List Char → Bool
  | [], _ => true
  | _ :: _, [] => false
  | p :: ps, c :: cs => p == c && startsWithL ps cs

/-- The character sequence of the slug placeholder used by URL path
templates. -/
def slugPat : List Char := "\x7bslug\x7d".toList

/-- Whether a character pattern occurs anywhere inside a character list. -/
def hasInfixL (pat : List Char) : List Char → Bool
  | [] => startsWithL pat []
  | c :: cs => startsWithL pat (c :: cs) || hasInfixL pat cs

/-- Whether a string template contains the slug placeholder. -/
def containsSlug (s : String) : Bool :=
  hasInfixL slugPat s.toList

/-- Fuel-indexed slug substitution on character lists: each occurrence of
the slug placeholder is replaced by the slug's characters. -/
def substSlugAux (slug : List Char) : Nat → List Char → List Char
  | _, [] => []
  | 0, l => l
  | Nat.succ n, c :: cs =>
    if startsWithL slugPat (c :: cs) then
      slug ++ substSlugAux slug n (List.drop (slugPat.length - 1) cs)
    else
      c :: substSlugAux slug n cs

/-- Modelled from the spec: rendering a URL path template by substituting a
slug value for each slug placeholder, as done by the external generator at
render time. -/
def substSlug (t slug : String) : String :=
  String.mk (substSlugAux slug.toList t.toList.length t.toList)

/-- A successful lookup finds an entry of the association list. -/
theorem lookup_mem {l : Doc} {k : String} {v : Value}
    (h : List.lookup k l = some v) : (k, v) ∈ l := by
  induction l with
  | nil => simp [List.lookup] at h
  | cons p l ih =>
    obtain ⟨a, b⟩ := p
    simp only [List.lookup] at h
    rcases hk : (k == a) with _ | _
    · rw [hk] at h
      exact List.mem_cons_of_mem _ (ih h)
    · rw [hk] at h
      obtain rfl : b = v := by injection h
      obtain rfl : k = a := by simpa using hk
      exact List.mem_cons_self _ _

/-- A key absent from an association list is absent from any filtering of
it. -/
theorem lookup_filter_none {l : Doc} {k : String} (p : String × Value → Bool)
    (h : List.lookup k l = none) : List.lookup k (l.filter p) = none := by
  induction l with
  | nil => simp
  | cons q l ih =>
    obtain ⟨a, b⟩ := q
    simp only [List.lookup] at h
    rcases hk : (k == a) with _ | _
    · rw [hk] at h
      rw [List.filter]
      rcases hp : p (a, b) with _ | _
      · exact ih h
      · simp only [List.lookup, hk]
        exact ih h
    · rw [hk] at h
      exact absurd h (by simp)

/-- Unpacking a successful load: no load-time error was detected and the
settings hold exactly the recognized entries of the document. -/
theorem load_ok {doc : Doc} {s : Settings} (h : load doc = Except.ok s) :
    missingErrors doc = [] ∧ malformedErrors doc = [] ∧
      s.entries = doc.filter fun kv => (typeOf? kv.1).isSome := by
  unfold load at h
  split at h
  case isTrue he =>
    obtain ⟨h1, h2⟩ := List.append_eq_nil.mp (List.isEmpty_iff.mp he)
    obtain rfl : Settings.mk (doc.filter fun kv => (typeOf? kv.1).isSome) = s := by
      injection h
    exact ⟨h1, h2, rfl⟩
  case isFalse he => exact absurd h (by simp)

/-- A document with no malformed entry binds each recognized key it holds
to a value of the declared type. -/
theorem wellTyped_of_malformed_nil {doc : Doc} (h : malformedErrors doc = [])
    {k : String} {v : Value} {t : ValType} (hm : (k, v) ∈ doc)
    (ht : typeOf? k = some t) : checksType v t = true := by
  have hf := List.filterMap_eq_nil_iff.mp h _ hm
  simp only [ht] at hf
  rcases hc : checksType v t with _ | _
  · rw [hc] at hf
    exact absurd hf (by simp)
  · rfl

/-- Every feed key is recognized with the string-or-null type. -/
theorem typeOf_feedKeys {k : String} (h : k ∈ feedKeys) :
    typeOf? k = some ValType.tOptStr := by
  simp only [feedKeys, List.mem_cons, List.not_mem_nil, or_false] at h
  rcases h with rfl | rfl | rfl <;> rfl

/-- Every documented default value matches the declared type of its key. -/
theorem defaultFor_wellTyped {k : String} {v : Value} {t : ValType}
    (ht : typeOf? k = some t) (hd : defaultFor k = some v) :
    checksType v t = true := by
  unfold defaultFor at hd
  split at hd
  case isTrue hk =>
    subst hk
    obtain rfl : Value.int 10 = v := by injection hd
    have ht' : (some ValType.tInt : Option ValType) = some t := by rw [← ht]; rfl
    obtain rfl : ValType.tInt = t := by injection ht'
    rfl
  case isFalse =>
    split at hd
    case isTrue hk =>
      obtain rfl : Value.null = v := by injection hd
      obtain rfl : ValType.tOptStr = t := by injection (typeOf_feedKeys hk).symm.trans ht
      rfl
    case isFalse => exact absurd hd (by simp)

/-- Every value returned by `get` on a loaded settings object matches the
declared type of its key. -/
theorem get_wellTyped {doc : Doc} {s : Settings} (h : load doc = Except.ok s)
    {k : String} {t : ValType} {v : Value} (ht : typeOf? k = some t)
    (hg : Settings.get s k = some v) : checksType v t = true := by
  obtain ⟨-, hmal, hent⟩ := load_ok h
  unfold Settings.get at hg
  split at hg
  case h_1 w hl =>
    obtain rfl : w = v := by injection hg
    have hmem : (k, w) ∈ s.entries := lookup_mem hl
    rw [hent] at hmem
    exact wellTyped_of_malformed_nil hmal (List.mem_filter.mp hmem).1 ht
  case h_2 => exact defaultFor_wellTyped ht hg

/-- A mandatory key absent from the document contributes a
`MissingRequiredKeyError`. -/
theorem missing_mem {doc : Doc} {k : String} (hk : k ∈ requiredKeys)
    (h : List.lookup k doc = none) :
    LoadError.missingRequiredKey k ∈ missingErrors doc := by
  unfold missingErrors
  exact List.mem_filterMap.mpr ⟨k, hk, by simp [h]⟩

/-- A recognized entry of the wrong type contributes a
`MalformedConfigError`. -/
theorem malformed_mem {doc : Doc} {k : String} {v : Value} {t : ValType}
    (hmem : (k, v) ∈ doc) (ht : typeOf? k = some t)
    (hc : checksType v t = false) :
    LoadError.malformedConfig k ∈ malformedErrors doc := by
  unfold malformedErrors
  exact List.mem_filterMap.mpr ⟨(k, v), hmem, by simp [ht, hc]⟩

/-- When some load-time error was detected, `load` fails with the full
error list. -/
theorem load_error_of_mem {doc : Doc} {e : LoadError}
    (h : e ∈ missingErrors doc ++ malformedErrors doc) :
    ∃ es, load doc = Except.error es ∧ e ∈ es := by
  refine ⟨missingErrors doc ++ malformedErrors doc, ?_, h⟩
  have hne : ¬ ((missingErrors doc ++ malformedErrors doc).isEmpty = true) := by
    intro hie
    rw [List.isEmpty_iff.mp hie] at h
    exact absurd h (List.not_mem_nil _)
  unfold load
  rw [if_neg hne]

/-- The sixteen recognized keys named by the claims, in the order of the
specification's key table. -/
def keyTable16 : List String :=
  [ "AUTHOR", "SITENAME", "SITEURL", "TIMEZONE", "DEFAULT_LANG",
    "FEED_ALL_ATOM", "CATEGORY_FEED_ATOM", "TRANSLATION_FEED_ATOM",
    "LINKS", "SOCIAL", "DEFAULT_PAGINATION", "THEME", "RELATIVE_URLS",
    "ARCHIVES_SAVE_AS", "ARTICLE_URL", "ARTICLE_SAVE_AS" ]

/-- C1: for every document, after a successful load, any value `get`
returns for a recognized key matches that key's declared type from the key
table; and in the `pelicanconf` document every assigned key's value matches
its declared type. -/
theorem c1_load_get_declared_types :
    (∀ (doc : Doc) (s : Settings) (k : String) (t : ValType) (v : Value),
        load doc = Except.ok s → typeOf? k = some t →
        Settings.get s k = some v → checksType v t = true) ∧
    (pelicanconf.all fun kv =>
        match typeOf? kv.1 with
        | some t => checksType kv.2 t
        | none => true) = true := by
  constructor
  · intro doc s k t v h ht hg
    exact get_wellTyped h ht hg
  · decide

/-- C1 witness: on the loaded `pelicanconf`, `get` of DEFAULT_PAGINATION
returns a value of the declared integer type. -/
theorem c1_load_get_declared_types_witness :
    checksType (Value.int 10) ValType.tInt = true :=
  c1_load_get_declared_types.1 pelicanconf pelicanSettings "DEFAULT_PAGINATION"
    ValType.tInt (Value.int 10) rfl rfl (by decide)

/-- C2 counterexample: the claim is false as stated: the value of
ARCHIVES_SAVE_AS in `pelicanconf` is "blog/index.html", which contains no
slug placeholder, so not all three template keys hold a slug-parameterized
string. -/
theorem c2_counterexample :
    ¬ (∀ k, k ∈ (["ARCHIVES_SAVE_AS", "ARTICLE_URL", "ARTICLE_SAVE_AS"] : List String) →
        ∀ v, List.lookup k pelicanconf = some v →
          ∃ p, v = Value.str p ∧ containsSlug p = true) := by
  intro h
  obtain ⟨p, hp, hc⟩ :=
    h "ARCHIVES_SAVE_AS" (by decide) (Value.str "blog/index.html") (by decide)
  obtain rfl : "blog/index.html" = p := by injection hp
  exact absurd hc (by decide)

/-- C2 (amended): ARTICLE_URL and ARTICLE_SAVE_AS hold templates containing
the slug placeholder; ARCHIVES_SAVE_AS holds the fixed path
"blog/index.html" with no slug placeholder. -/
theorem c2_slug_templates :
    List.lookup "ARTICLE_URL" pelicanconf = some (Value.str "blog/\x7bslug\x7d.html") ∧
    List.lookup "ARTICLE_SAVE_AS" pelicanconf = some (Value.str "blog/\x7bslug\x7d.html") ∧
    containsSlug "blog/\x7bslug\x7d.html" = true ∧
    List.lookup "ARCHIVES_SAVE_AS" pelicanconf = some (Value.str "blog/index.html") ∧
    containsSlug "blog/index.html" = false := by
  exact ⟨by decide, by decide, by decide, by decide, by decide⟩

/-- C3: a document without SITENAME fails with `MissingRequiredKeyError`
for SITENAME, likewise for SITEURL; `pelicanconf` defines both, and loading
it succeeds. -/
theorem c3_missing_required :
    (∀ doc : Doc, List.lookup "SITENAME" doc = none →
        ∃ es, load doc = Except.error es ∧
          LoadError.missingRequiredKey "SITENAME" ∈ es) ∧
    (∀ doc : Doc, List.lookup "SITEURL" doc = none →
        ∃ es, load doc = Except.error es ∧
          LoadError.missingRequiredKey "SITEURL" ∈ es) ∧
    load pelicanconf = Except.ok pelicanSettings :=
  ⟨fun _ h => load_error_of_mem
      (List.mem_append_left _ (missing_mem (by decide) h)),
   fun _ h => load_error_of_mem
      (List.mem_append_left _ (missing_mem (by decide) h)),
   rfl⟩

/-- C3 witness: the empty document lacks SITENAME and fails with
`MissingRequiredKeyError`. -/
theorem c3_missing_required_witness :
    ∃ es, load [] = Except.error es ∧
      LoadError.missingRequiredKey "SITENAME" ∈ es :=
  c3_missing_required.1 [] rfl

/-- C4: a document binding a recognized key to a value of the wrong type
fails with `MalformedConfigError` for that key. -/
theorem c4_wrong_type_fails :
    ∀ (doc : Doc) (k : String) (v : Value) (t : ValType),
      List.lookup k doc = some v → typeOf? k = some t →
      checksType v t = false →
      ∃ es, load doc = Except.error es ∧ LoadError.malformedConfig k ∈ es :=
  fun _ _ _ _ hl ht hc =>
    load_error_of_mem
      (List.mem_append_right _ (malformed_mem (lookup_mem hl) ht hc))

/-- C4 witness: a document with DEFAULT_PAGINATION bound to the string
"ten" fails with `MalformedConfigError`. -/
theorem c4_wrong_type_fails_witness :
    ∃ es, load [("DEFAULT_PAGINATION", Value.str "ten")] = Except.error es ∧
      LoadError.malformedConfig "DEFAULT_PAGINATION" ∈ es :=
  c4_wrong_type_fails [("DEFAULT_PAGINATION", Value.str "ten")]
    "DEFAULT_PAGINATION" (Value.str "ten") ValType.tInt rfl rfl rfl

/-- C5: on any successfully loaded document that omits DEFAULT_PAGINATION,
`get` of DEFAULT_PAGINATION returns the documented default 10; and
`pelicanconf` sets DEFAULT_PAGINATION explicitly to that same value 10. -/
theorem c5_pagination_default :
    (∀ (doc : Doc) (s : Settings), load doc = Except.ok s →
        List.lookup "DEFAULT_PAGINATION" doc = none →
        Settings.get s "DEFAULT_PAGINATION" = some (Value.int 10)) ∧
    List.lookup "DEFAULT_PAGINATION" pelicanconf = some (Value.int 10) := by
  constructor
  · intro doc s h hnone
    obtain ⟨-, -, hent⟩ := load_ok h
    unfold Settings.get
    rw [hent, lookup_filter_none _ hnone]
    rfl
  · decide

/-- C5 witness: a valid two-key document omitting DEFAULT_PAGINATION loads
and `get` of DEFAULT_PAGINATION returns 10. -/
theorem c5_pagination_default_witness :
    Settings.get ⟨[("SITENAME", Value.str "s"), ("SITEURL", Value.str "/")]⟩
      "DEFAULT_PAGINATION" = some (Value.int 10) :=
  c5_pagination_default.1 [("SITENAME", Value.str "s"), ("SITEURL", Value.str "/")]
    ⟨[("SITENAME", Value.str "s"), ("SITEURL", Value.str "/")]⟩ rfl rfl

/-- C6: on any successfully loaded document, a feed key's value from `get`
is null or a string path; in the loaded `pelicanconf` all three feed keys
are null, so feed generation is disabled for all three feeds. -/
theorem c6_feed_keys :
    (∀ (doc : Doc) (s : Settings) (k : String) (v : Value),
        load doc = Except.ok s → k ∈ feedKeys → Settings.get s k = some v →
        v = Value.null ∨ ∃ p, v = Value.str p) ∧
    load pelicanconf = Except.ok pelicanSettings ∧
    (feedKeys.all fun k =>
        (Settings.get pelicanSettings k == some Value.null) &&
        (feedGenerationOn pelicanSettings k == false)) = true := by
  refine ⟨?_, rfl, by decide⟩
  intro doc s k v h hk hg
  have hc := get_wellTyped h (typeOf_feedKeys hk) hg
  rcases v with p | n | b | _ | ps | ss
  · exact Or.inr ⟨p, rfl⟩
  · simp [checksType] at hc
  · simp [checksType] at hc
  · exact Or.inl rfl
  · simp [checksType] at hc
  · simp [checksType] at hc

/-- C6 witness: on the loaded `pelicanconf`, the value of FEED_ALL_ATOM is
null or a string path. -/
theorem c6_feed_keys_witness :
    Value.null = Value.null ∨ ∃ p, Value.null = Value.str p :=
  c6_feed_keys.1 pelicanconf pelicanSettings "FEED_ALL_ATOM" Value.null
    rfl (by decide) (by decide)

/-- C7: `load` is deterministic, hence idempotent: two loads of the same
document yield equal settings objects. -/
theorem c7_load_idempotent :
    ∀ (doc : Doc) (s₁ s₂ : Settings),
      load doc = Except.ok s₁ → load doc = Except.ok s₂ → s₁ = s₂ := by
  intro doc s₁ s₂ h₁ h₂
  rw [h₁] at h₂
  injection h₂

/-- C7 witness: two loads of `pelicanconf` yield the same settings
object. -/
theorem c7_load_idempotent_witness : pelicanSettings = pelicanSettings :=
  c7_load_idempotent pelicanconf pelicanSettings pelicanSettings rfl rfl

/-- C8: LINKS holds four and SOCIAL two (label, URL) string pairs, each
with a non-empty label. -/
theorem c8_links_social_wellformed :
    (∃ links, List.lookup "LINKS" pelicanconf = some (Value.pairList links) ∧
        links.length = 4 ∧ (links.all fun p => !(p.1 == "")) = true) ∧
    (∃ social, List.lookup "SOCIAL" pelicanconf = some (Value.pairList social) ∧
        social.length = 2 ∧ (social.all fun p => !(p.1 == "")) = true) := by
  refine ⟨⟨[ ("Pelican", "http://getpelican.com/"),
             ("Python.org", "http://python.org/"),
             ("Jinja2", "http://jinja.pocoo.org/"),
             ("You can modify those links in your config file", "#") ],
           by decide, by decide, by decide⟩,
          ⟨[ ("You can add links in your config file", "#"),
             ("Another social link", "#") ],
           by decide, by decide, by decide⟩⟩

/-- C9: ARTICLE_URL and ARTICLE_SAVE_AS hold the same template
"blog/(slug).html", so for every slug the rendered article URL equals the
rendered save path. -/
theorem c9_article_url_eq_save_as :
    List.lookup "ARTICLE_URL" pelicanconf =
      List.lookup "ARTICLE_SAVE_AS" pelicanconf ∧
    List.lookup "ARTICLE_URL" pelicanconf = some (Value.str "blog/\x7bslug\x7d.html") ∧
    (∀ (tu ta slug : String),
        List.lookup "ARTICLE_URL" pelicanconf = some (Value.str tu) →
        List.lookup "ARTICLE_SAVE_AS" pelicanconf = some (Value.str ta) →
        substSlug tu slug = substSlug ta slug) := by
  refine ⟨by decide, by decide, ?_⟩
  intro tu ta slug hu ha
  have hu' : some (Value.str "blog/\x7bslug\x7d.html") = some (Value.str tu) :=
    (show List.lookup "ARTICLE_URL" pelicanconf =
        some (Value.str "blog/\x7bslug\x7d.html") by decide).symm.trans hu
  have ha' : some (Value.str "blog/\x7bslug\x7d.html") = some (Value.str ta) :=
    (show List.lookup "ARTICLE_SAVE_AS" pelicanconf =
        some (Value.str "blog/\x7bslug\x7d.html") by decide).symm.trans ha
  have hu2 : Value.str "blog/\x7bslug\x7d.html" = Value.str tu := by injection hu'
  have ha2 : Value.str "blog/\x7bslug\x7d.html" = Value.str ta := by injection ha'
  obtain rfl : "blog/\x7bslug\x7d.html" = tu := by injection hu2
  obtain rfl : "blog/\x7bslug\x7d.html" = ta := by injection ha2
  rfl

/-- C9 witness: at the concrete slug "hello-world" the rendered URL and
save path coincide. -/
theorem c9_article_url_eq_save_as_witness :
    substSlug "blog/\x7bslug\x7d.html" "hello-world" =
      substSlug "blog/\x7bslug\x7d.html" "hello-world" :=
  c9_article_url_eq_save_as.2.2 "blog/\x7bslug\x7d.html" "blog/\x7bslug\x7d.html"
    "hello-world" (by decide) (by decide)

/-- C10: every key assigned in `pelicanconf` is one of the sixteen
recognized keys the claims list, loading it raises no unknown-key warning,
and no entry is dropped as unrecognized. -/
theorem c10_all_keys_recognized :
    (pelicanconf.all fun kv => keyTable16.contains kv.1) = true ∧
    unknownKeyWarnings pelicanconf = [] ∧
    pelicanSettings.entries = pelicanconf := by
  exact ⟨by decide, by decide, by decide⟩

end AinsCo
